import Mathlib

/-!
Verification of the kvm-kext virtual-machine monitor (src/main.cpp).

This file gives a shallow embedding of the EPT (second-level page table)
manager, the VM-exit handlers, the run loop, the interrupt-line operation
and the memory-region installer, and proves the testable properties of the
specification against them.

Machine integers (C `unsigned long`, `u32`, `__u16`) are modelled as `Nat`
with explicit `% 2^w` where the width matters.  A C `NULL` child pointer in
a page-table node is modelled as `Option.none`; freshly allocated nodes are
zero-filled (`IOCallocAligned` bzeroes), so a fresh table node maps every
index to `none` (interior level) or `0` (leaf level).  Handlers return
`1` to let the run loop continue and `0` to stop it, exactly as the C
handler functions do.
-/

namespace KvmKext

/-! Constants from the source and from the platform headers. -/

/-- Page size on the target platform (x86-64 macOS kernel): 4096 bytes. -/
def PAGE_SIZE : Nat := 4096

/-- Constant `EPT_DEFAULTS = VMX_EPT_EXECUTABLE_MASK | VMX_EPT_WRITABLE_MASK
| VMX_EPT_READABLE_MASK` = `4 | 2 | 1` (src/main.cpp line 124, masks from
asm/uapi_vmx.h). -/
def EPT_DEFAULTS : Nat := 7

/-- Constant `EPT_CACHE_WRITEBACK = 6 << 3` (src/main.cpp line 123). -/
def EPT_CACHE_WRITEBACK : Nat := 48

/-- Mask `~(PAGE_SIZE-1)` computed on a 64-bit `unsigned long`: all bits
12..63 set. -/
def PAGE_MASK64 : Nat := 2 ^ 64 - PAGE_SIZE

/-- Constant `IRQ_MAX` (src/main.cpp line 61). -/
def IRQ_MAX : Nat := 16

/-- Errno value `EINVAL`. -/
def EINVAL : Nat := 22

/-- Exit reason constant `KVM_EXIT_IO` (linux/kvm.h): value 2. -/
def KVM_EXIT_IO_REASON : Nat := 2

/-- Direction constant `KVM_EXIT_IO_IN` (linux/kvm.h). -/
def KVM_EXIT_IO_IN : Nat := 0

/-- Direction constant `KVM_EXIT_IO_OUT` (linux/kvm.h). -/
def KVM_EXIT_IO_OUT : Nat := 1

/-- Constant `KVM_PIO_PAGE_OFFSET` (src/main.cpp line 50). -/
def KVM_PIO_PAGE_OFFSET : Nat := 1

/-- Register index `VCPU_REGS_RAX` (helpers/kvm_host.h register enum). -/
def VCPU_REGS_RAX : Nat := 0

/-- Register index `VCPU_REGS_RCX`. -/
def VCPU_REGS_RCX : Nat := 1

/-- Register index `VCPU_REGS_RDX`. -/
def VCPU_REGS_RDX : Nat := 2

/-- Register index `VCPU_REGS_RBX`. -/
def VCPU_REGS_RBX : Nat := 3

/-- Register index `VCPU_REGS_RIP`. -/
def VCPU_REGS_RIP : Nat := 16

/-! EPT model.

The source stores, in each interior node of size `PAGE_SIZE*2`, the
hardware-visible physical entry at index `i` and the software-visible host
virtual pointer at index `PAGE_OFFSET + i`.  `ept_translate` and
`ept_add_page` walk only the software half (and the leaf page table), so the
embedding models the software-visible tree: each interior level is a map
from index to an optional child (`none` is the C `NULL` pointer), and the
leaf level (`pt`, a single zero-filled page) maps index to the stored
64-bit entry value. -/

/-- Leaf page table: 512 `unsigned long` entries (zero when untouched). -/
def PTNode : Type := Nat → Nat

/-- Page directory: software half holding optional `pt` children. -/
def PDNode : Type := Nat → Option PTNode

/-- Page-directory-pointer table: software half with optional `pd` children. -/
def PDPTNode : Type := Nat → Option PDNode

/-- Root `pml4` table: software half holding optional `pdpt` children. -/
def EPT : Type := Nat → Option PDPTNode

/-- Pointwise array update (C array assignment `a[i] = v`). -/
def updf {α : Type} (f : Nat → α) (i : Nat) (v : α) : Nat → α :=
  fun j => if j = i then v else f j

/-- A freshly `IOCallocAligned`-allocated (zero-filled) leaf page table. -/
def freshPT : PTNode := fun _ => 0

/-- A freshly allocated page directory: all child pointers `NULL`. -/
def freshPD : PDNode := fun _ => none

/-- A freshly allocated pdpt: all child pointers `NULL`. -/
def freshPDPT : PDPTNode := fun _ => none

/-- The `pml4` right after `ept_init`: all child pointers `NULL`. -/
def emptyEPT : EPT := fun _ => none

/-- Index expression `(virtual_address >> 39) & 0x1FF` (src/main.cpp 151/168). -/
def pml4_idx (va : Nat) : Nat := (va >>> 39) &&& 0x1FF

/-- Index expression `(virtual_address >> 30) & 0x1FF`. -/
def pdpt_idx (va : Nat) : Nat := (va >>> 30) &&& 0x1FF

/-- Index expression `(virtual_address >> 21) & 0x1FF`. -/
def pd_idx (va : Nat) : Nat := (va >>> 21) &&& 0x1FF

/-- Index expression `(virtual_address >> 12) & 0x1FF`. -/
def pt_idx (va : Nat) : Nat := (va >>> 12) &&& 0x1FF

/-- Function `ept_translate` (src/main.cpp lines 150-164): read-only walk of
the software half; returns `0` when any intermediate pointer is `NULL`, else
the leaf entry masked with `~(PAGE_SIZE-1)`. -/
def ept_translate (ept : EPT) (va : Nat) : Nat :=
  match ept (pml4_idx va) with
  | none => 0
  | some pdpt =>
    match pdpt (pdpt_idx va) with
    | none => 0
    | some pd =>
      match pd (pd_idx va) with
      | none => 0
      | some pt => pt (pt_idx va) &&& PAGE_MASK64

/-- Function `ept_add_page` (src/main.cpp lines 167-201): get-or-allocate the
`pdpt`, `pd` and `pt` on the walk (fresh nodes are zero-filled), then
unconditionally store `physical_address | EPT_DEFAULTS | EPT_CACHE_WRITEBACK`
in the leaf slot.  Only the software-visible half is modelled; the parallel
`__pa(...) | EPT_DEFAULTS` hardware entries live at the other offset half of
each node and are never read by `ept_translate`. -/
def ept_add_page (ept : EPT) (va pa : Nat) : EPT :=
  let pdpt := (ept (pml4_idx va)).getD freshPDPT
  let pd := (pdpt (pdpt_idx va)).getD freshPD
  let pt := (pd (pd_idx va)).getD freshPT
  let pt' := updf pt (pt_idx va) (pa ||| EPT_DEFAULTS ||| EPT_CACHE_WRITEBACK)
  let pd' := updf pd (pd_idx va) (some pt')
  let pdpt' := updf pdpt (pdpt_idx va) (some pd')
  updf ept (pml4_idx va) (some pdpt')

/-! Run loop skeleton.

In `kvm_run_wrapper` (src/main.cpp lines 882-981) the loop is
`while (cont && (maxcont++) < 1000) { ...; cont = handler(vcpu); ...;
if (error != 0) break; }` followed by `if (cont == 1) printf("EXIT FROM
TIMEOUT ...")`.  The skeleton is modelled parametrically over the per-exit
outcome: `step k` yields the `cont` value the dispatch produces at
iteration `k` (`true` iff the handler table entry returned nonzero; `false`
also covers an out-of-range or unhandled exit reason) together with the
`VM_INSTRUCTION_ERROR` value read that iteration.  The result is the number
of executed loop bodies and whether the timeout report (`cont == 1` at loop
exit) fires. -/

/-- Loop body recursion; `fuel` is `1000 - maxcont` for the C counter. -/
def runLoopAux (step : Nat → Bool × Nat) : Nat → Bool → Nat → Nat × Bool
  | 0, cont, iters => (iters, cont)
  | fuel + 1, cont, iters =>
    if cont then
      let r := step iters
      if r.2 ≠ 0 then (iters + 1, r.1)
      else runLoopAux step fuel r.1 (iters + 1)
    else (iters, cont)

/-- The bounded exit-dispatch loop of `kvm_run_wrapper`, with `cont`
initialized to 1 and the bound of 1000 dispatches. -/
def kvm_run_wrapper_loop (step : Nat → Bool × Nat) : Nat × Bool :=
  runLoopAux step 1000 true 0

/-! Virtual CPU state and exit handlers.

Only the fields read or written by the modelled handlers are included. -/

/-- The `io` member of `struct kvm_run` (linux/kvm.h); `port` is a `__u16`. -/
structure KvmRunIo where
  direction : Nat
  size : Nat
  port : Nat
  count : Nat
  data_offset : Nat

/-- One `struct kvm_cpuid_entry2` override entry (all fields `__u32`). -/
structure KvmCpuidEntry where
  function : Nat
  index : Nat
  eax : Nat
  ebx : Nat
  ecx : Nat
  edx : Nat

/-- The `struct vcpu` fields used by the modelled handlers.  `regs` is the
`unsigned long regs[NR_VCPU_REGS]` file; `pio_data` is the 8 bytes of the
shared I/O buffer that `handle_io` can touch, read as a little-endian
value. -/
structure Vcpu where
  regs : Nat → Nat
  exit_qualification : Nat
  exit_instruction_len : Nat
  pending_io : Nat
  pio_data : Nat
  io : KvmRunIo
  exit_reason : Nat
  cpuids : List KvmCpuidEntry

/-- Function `skip_emulated_instruction` (src/main.cpp lines 207-209):
`regs[VCPU_REGS_RIP] += exit_instruction_len` on a 64-bit register. -/
def skip_emulated_instruction (v : Vcpu) : Vcpu :=
  let rip := (v.regs VCPU_REGS_RIP + v.exit_instruction_len) % 2 ^ 64
  { v with regs := updf v.regs VCPU_REGS_RIP rip }

/-- Handler `handle_io` (src/main.cpp lines 211-237): decode the exit
qualification into the shared `io` record; for an `out` copy the low
`min(size,8)` bytes of `RAX` into the I/O buffer, for an `in` mark the
transaction pending; set `exit_reason` to `KVM_EXIT_IO`; skip the
instruction; and return 0 (stop the run loop). -/
def handle_io (v : Vcpu) : Vcpu × Nat :=
  let exit_qualification := v.exit_qualification
  let inb : Bool := exit_qualification &&& 8 ≠ 0
  let io1 : KvmRunIo :=
    { direction := if inb then KVM_EXIT_IO_IN else KVM_EXIT_IO_OUT
      size := (exit_qualification &&& 7) + 1
      port := (exit_qualification >>> 16) % 2 ^ 16
      count := 1
      data_offset := KVM_PIO_PAGE_OFFSET * PAGE_SIZE }
  let v1 := { v with io := io1 }
  let v2 :=
    if !inb then
      let val := v1.regs VCPU_REGS_RAX
      let size := io1.size * io1.count
      let m := Nat.min size 8
      { v1 with pio_data :=
          v1.pio_data / 2 ^ (8 * m) * 2 ^ (8 * m) + val % 2 ^ (8 * m) }
    else { v1 with pending_io := 1 }
  let v3 := { v2 with exit_reason := KVM_EXIT_IO_REASON }
  (skip_emulated_instruction v3, 0)

/-- First-match scan of the CPUID override table (the `for` loop in
`handle_cpuid`, src/main.cpp lines 250-259). -/
def cpuid_lookup : List KvmCpuidEntry → Nat → Nat → Option KvmCpuidEntry
  | [], _, _ => none
  | e :: rest, fn, idx =>
    if e.function = fn ∧ e.index = idx then some e
    else cpuid_lookup rest fn idx

/-- The `(eax, ebx, ecx, edx)` quadruple the lookup phase of `handle_cpuid`
produces: the first matching override entry, or the real CPU instruction's
32-bit outputs on a miss. -/
def cpuid_result (realCpuid : Nat → Nat → Nat × Nat × Nat × Nat)
    (v : Vcpu) : Nat × Nat × Nat × Nat :=
  let function := v.regs VCPU_REGS_RAX % 2 ^ 32
  let ecx0 := v.regs VCPU_REGS_RCX % 2 ^ 32
  match cpuid_lookup v.cpuids function ecx0 with
  | some e => (e.eax, e.ebx, e.ecx, e.edx)
  | none =>
    let r := realCpuid function ecx0
    (r.1 % 2 ^ 32, r.2.1 % 2 ^ 32, r.2.2.1 % 2 ^ 32, r.2.2.2 % 2 ^ 32)

/-- The post-lookup feature masking of `handle_cpuid` (src/main.cpp lines
283-295): for function 1, `edx &= ~(1<<25 | 1<<26)`, `ecx &= ~(1<<0 |
1<<9)`, `ecx &= ~(1<<19 | 1<<20)`, `ecx &= ~(1<<26 | 1<<27)`; other
functions pass through.  Returns the adjusted `(ecx, edx)`. -/
def cpuid_adjust (function ecx edx : Nat) : Nat × Nat :=
  if function = 1 then
    (ecx &&& 0xFFFFFDFE &&& 0xFFE7FFFF &&& 0xF3FFFFFF, edx &&& 0xF9FFFFFF)
  else (ecx, edx)

/-- Handler `handle_cpuid` (src/main.cpp lines 239-304).  `function` and the
requested index are the low 32 bits of guest `RAX`/`RCX` (`u32`
assignment).  The override table is scanned first; on a miss the real CPU
instruction supplies the leaf (modelled by the oracle `realCpuid`, whose
outputs are 32-bit).  After the lookup the function-1 feature masking of
`cpuid_adjust` runs unconditionally; results land in guest
`RAX`/`RBX`/`RCX`/`RDX`, the instruction is skipped, and the handler
returns 1 (continue). -/
def handle_cpuid (realCpuid : Nat → Nat → Nat × Nat × Nat × Nat)
    (v : Vcpu) : Vcpu × Nat :=
  let function := v.regs VCPU_REGS_RAX % 2 ^ 32
  let quad := cpuid_result realCpuid v
  let masked := cpuid_adjust function quad.2.2.1 quad.2.2.2
  let regs1 := updf (updf (updf (updf v.regs VCPU_REGS_RAX quad.1) VCPU_REGS_RBX quad.2.1) VCPU_REGS_RCX masked.1) VCPU_REGS_RDX masked.2
  let v1 := { v with regs := regs1 }
  (skip_emulated_instruction v1, 1)

/-- Hardware MSR file: index to 64-bit value. -/
def MsrState : Type := Nat → Nat

/-- Handler `handle_rdmsr` (src/main.cpp lines 306-317): executes the real
`rdmsr` against the hardware MSR file with the guest `ECX`, storing the low
half in guest `RAX` and the high half in guest `RDX` (the hardware
instruction zero-extends both), skips, returns 1. -/
def handle_rdmsr (v : Vcpu) (msr : MsrState) : Vcpu × Nat :=
  let val := msr (v.regs VCPU_REGS_RCX % 2 ^ 32) % 2 ^ 64
  let regs1 := updf (updf v.regs VCPU_REGS_RAX (val % 2 ^ 32)) VCPU_REGS_RDX (val >>> 32)
  let v1 := { v with regs := regs1 }
  (skip_emulated_instruction v1, 1)

/-- Handler `handle_wrmsr` (src/main.cpp lines 319-323): only logs, skips
the instruction and returns 1; the hardware MSR file is left untouched and
no `wrmsr` instruction is issued. -/
def handle_wrmsr (v : Vcpu) (msr : MsrState) : Vcpu × MsrState × Nat :=
  (skip_emulated_instruction v, msr, 1)

/-- Modelled from the spec: what executing the real `wrmsr` instruction with
the guest register values would do to the hardware MSR file — write
`EDX:EAX` to the MSR selected by `ECX` ("executes the real instruction
directly against hardware").  Used to compare `handle_wrmsr` against the
specified behaviour. -/
def wrmsr_real_effect (msr : MsrState) (regs : Nat → Nat) : MsrState :=
  updf msr (regs VCPU_REGS_RCX % 2 ^ 32)
    ((regs VCPU_REGS_RDX % 2 ^ 32) * 2 ^ 32 + regs VCPU_REGS_RAX % 2 ^ 32)

/-! Interrupt lines. -/

/-- The interrupt-line state of `struct vcpu`: `int irq_level[IRQ_MAX]` and
the pending bitmap `int pending_irq`. -/
structure IrqState where
  irq_level : Nat → Nat
  pending_irq : Nat

/-- Operation `kvm_irq_line` (src/main.cpp lines 1010-1025): for a line
below `IRQ_MAX`, set the pending bit only on a 0-to-1 transition of the
stored level, then store the new level; out-of-range lines are untouched.
Returns 0 in every case. -/
def kvm_irq_line (s : IrqState) (irq level : Nat) : IrqState × Nat :=
  if irq < IRQ_MAX then
    let pending :=
      if s.irq_level irq = 0 ∧ level = 1 then s.pending_irq ||| (1 <<< irq)
      else s.pending_irq
    ({ irq_level := updf s.irq_level irq level, pending_irq := pending }, 0)
  else (s, 0)

/-! Memory-region installation. -/

/-- The page loop of `kvm_set_user_memory_region` (src/main.cpp lines
824-833): `for (off = 0; off < memory_size; off += PAGE_SIZE)`, resolving
each page through the pin-and-translate collaborator (`phys off` models
`md->getPhysicalSegment(off, ...)`) and installing it with `ept_add_page`;
an unresolvable page (`phys off = 0`) fails the whole call with `EINVAL`,
leaving the pages already installed in place. -/
def install_pages (phys : Nat → Nat) (gpa : Nat) :
    Nat → Nat → EPT → EPT × Nat
  | 0, _, ept => (ept, 0)
  | n + 1, off, ept =>
    let pa := phys off
    if pa ≠ 0 then
      install_pages phys gpa n (off + PAGE_SIZE) (ept_add_page ept (gpa + off) pa)
    else (ept, EINVAL)

/-- Number of iterations of that loop for a region of `memory_size` bytes. -/
def region_page_count (memory_size : Nat) : Nat :=
  (memory_size + PAGE_SIZE - 1) / PAGE_SIZE

/-- Operation `kvm_set_user_memory_region` (src/main.cpp lines 811-836).
The external pin-and-translate collaborator (`IOMemoryDescriptor`) is
abstracted by `prepare_ok` (whether `md->prepare` succeeds — its failure is
the only `EINVAL` before the page loop) and `phys`.  The source carries a
`// check alignment` comment but contains no alignment test: the
`userspace_addr` field only seeds the descriptor and the debug log, and no
code path rejects an unaligned value, so the parameter is unused here. -/
def kvm_set_user_memory_region (ept : EPT) (prepare_ok : Bool)
    (phys : Nat → Nat) (slot flags guest_phys_addr memory_size userspace_addr : Nat) :
    EPT × Nat :=
  if prepare_ok then
    install_pages phys guest_phys_addr (region_page_count memory_size) 0 ept
  else (ept, EINVAL)

/-! Concrete fixtures used by witnesses and counterexamples. -/

/-- A vCPU at an I/O exit: `in` direction (bit 3 of the qualification set),
size 1, port 0, instruction length 1. -/
def ioTestVcpu : Vcpu :=
  { regs := fun _ => 0
    exit_qualification := 8
    exit_instruction_len := 1
    pending_io := 0
    pio_data := 0
    io := { direction := 0, size := 0, port := 0, count := 0, data_offset := 0 }
    exit_reason := 0
    cpuids := [] }

/-- A vCPU at a CPUID exit for function 1 whose override table explicitly
sets every feature bit in `ecx` and `edx`. -/
def cpuidTestVcpu : Vcpu :=
  { regs := updf (fun _ => 0) VCPU_REGS_RAX 1
    exit_qualification := 0
    exit_instruction_len := 2
    pending_io := 0
    pio_data := 0
    io := { direction := 0, size := 0, port := 0, count := 0, data_offset := 0 }
    exit_reason := 0
    cpuids := [{ function := 1, index := 0, eax := 0, ebx := 0,
                 ecx := 0xFFFFFFFF, edx := 0xFFFFFFFF }] }

/-- A vCPU at an MSR-write exit: guest asks `wrmsr` of value 5 to MSR 0x10. -/
def msrTestVcpu : Vcpu :=
  { regs := updf (updf (fun _ => 0) VCPU_REGS_RCX 0x10) VCPU_REGS_RAX 5
    exit_qualification := 0
    exit_instruction_len := 2
    pending_io := 0
    pio_data := 0
    io := { direction := 0, size := 0, port := 0, count := 0, data_offset := 0 }
    exit_reason := 0
    cpuids := [] }

/-- An interrupt state with every line deasserted and nothing pending. -/
def irqTestState : IrqState := { irq_level := fun _ => 0, pending_irq := 0 }

/-! Helper lemmas. -/

lemma page_mask64_eq_shift : PAGE_MASK64 = (2 ^ 52 - 1) <<< 12 := by
  norm_num [PAGE_MASK64, PAGE_SIZE, Nat.shiftLeft_eq]

lemma testBit_page_mask64 (i : Nat) :
    PAGE_MASK64.testBit i = (decide (12 ≤ i) && decide (i < 64)) := by
  rw [page_mask64_eq_shift, Nat.testBit_shiftLeft, Nat.testBit_two_pow_sub_one]
  rcases Nat.lt_or_ge i 12 with h | h
  · simp [Nat.not_le.mpr h]
  · have : i - 12 < 52 ↔ i < 64 := by omega
    simp [h, this]

/-- Low flag bits are erased by the page mask. -/
lemma lor_flags_land_mask (x f : Nat) (hf : f < PAGE_SIZE) :
    (x ||| f) &&& PAGE_MASK64 = x &&& PAGE_MASK64 := by
  apply Nat.eq_of_testBit_eq
  intro i
  rw [Nat.testBit_land, Nat.testBit_land, Nat.testBit_lor, testBit_page_mask64]
  rcases Nat.lt_or_ge i 12 with h | h
  · simp [Nat.not_le.mpr h]
  · have hflt : f < 2 ^ i := lt_of_lt_of_le hf (by
      calc PAGE_SIZE = 2 ^ 12 := by norm_num [PAGE_SIZE]
      _ ≤ 2 ^ i := Nat.pow_le_pow_right (by norm_num) h)
    simp [Nat.testBit_lt_two_pow hflt]

/-- For 64-bit values, masking with `~(PAGE_SIZE-1)` clears the low 12 bits. -/
lemma land_mask_eq_div_mul (x : Nat) (hx : x < 2 ^ 64) :
    x &&& PAGE_MASK64 = x / PAGE_SIZE * PAGE_SIZE := by
  have hrhs : x / PAGE_SIZE * PAGE_SIZE = (x >>> 12) <<< 12 := by
    rw [Nat.shiftRight_eq_div_pow, Nat.shiftLeft_eq]
    norm_num [PAGE_SIZE]
  rw [hrhs]
  apply Nat.eq_of_testBit_eq
  intro i
  rw [Nat.testBit_land, testBit_page_mask64, Nat.testBit_shiftLeft]
  rcases Nat.lt_or_ge i 12 with h | h
  · simp [Nat.not_le.mpr h]
  · rcases Nat.lt_or_ge i 64 with h64 | h64
    · have h12 : 12 + (i - 12) = i := by omega
      simp [h, h64, Nat.testBit_shiftRight, h12]
    · have hxlt : x < 2 ^ i :=
        lt_of_lt_of_le hx (Nat.pow_le_pow_right (by norm_num) h64)
      simp [h, Nat.not_lt.mpr h64, Nat.testBit_lt_two_pow hxlt]

/-- Shared helper: a `translate` right after an `add_page` of the same guest
physical address returns the installed host physical page, for any prior
tree contents. -/
lemma ept_translate_after_add (ept : EPT) (va pa : Nat) (hpa : pa < 2 ^ 64) :
    ept_translate (ept_add_page ept va pa) va = pa / PAGE_SIZE * PAGE_SIZE := by
  have h1 : (pa ||| EPT_DEFAULTS ||| EPT_CACHE_WRITEBACK) &&& PAGE_MASK64
      = pa &&& PAGE_MASK64 := by
    rw [lor_flags_land_mask _ EPT_CACHE_WRITEBACK
        (by norm_num [EPT_CACHE_WRITEBACK, PAGE_SIZE]),
      lor_flags_land_mask _ EPT_DEFAULTS (by norm_num [EPT_DEFAULTS, PAGE_SIZE])]
  simp only [ept_translate, ept_add_page, updf, if_pos, if_true, eq_self_iff_true]
  rw [h1, land_mask_eq_div_mul pa hpa]

/-- Overwriting the same slot twice keeps only the second value. -/
lemma updf_updf_same {α : Type} (f : Nat → α) (i : Nat) (v w : α) :
    updf (updf f i v) i w = updf f i w := by
  funext j
  simp only [updf]
  by_cases h : j = i <;> simp [h]

/-- Bits absent from the right operand of a mask are clear in the result. -/
lemma testBit_land_right_false (x m i : Nat) (hm : m.testBit i = false) :
    (x &&& m).testBit i = false := by
  rw [Nat.testBit_land, hm, Bool.and_false]

/-- Bits already clear on the left stay clear under further masking. -/
lemma testBit_land_left_false (x m i : Nat) (hx : x.testBit i = false) :
    (x &&& m).testBit i = false := by
  rw [Nat.testBit_land, hx, Bool.false_and]

/-- The run-loop skeleton under an all-continue step stream: at most `fuel`
more bodies execute and the final `cont` is still 1. -/
lemma runLoopAux_all_continue (step : Nat → Bool × Nat)
    (h : ∀ k, (step k).1 = true) :
    ∀ fuel iters, (runLoopAux step fuel true iters).1 ≤ iters + fuel ∧
      (runLoopAux step fuel true iters).2 = true := by
  intro fuel
  induction fuel with
  | zero => intro iters; simp [runLoopAux]
  | succ n ih =>
    intro iters
    have hstep := h iters
    by_cases he : (step iters).2 = 0
    · have hrec := ih (iters + 1)
      simp only [runLoopAux, if_true, he, hstep, ne_eq, not_true_eq_false,
        ite_false, not_false_eq_true]
      constructor
      · exact le_trans hrec.1 (by omega)
      · exact hrec.2
    · simp only [runLoopAux, if_true, he, hstep, ne_eq, not_false_eq_true,
        ite_true]
      exact ⟨by omega, by simp [hstep]⟩

/-! Claim theorems. -/

/-- C1.  For every guest physical address `A` and host physical address `H`
(a 64-bit value), calling `addPage(vcpu, A, H)` and then
`translate(vcpu, A)` returns `H` masked to a page boundary — the low 12
bits cleared — regardless of which intermediate tables existed before the
call. -/
theorem ept_add_page_then_translate (ept : EPT) (va pa : Nat)
    (hpa : pa < 2 ^ 64) :
    ept_translate (ept_add_page ept va pa) va = pa / PAGE_SIZE * PAGE_SIZE :=
  ept_translate_after_add ept va pa hpa

/-- Witness for C1 at a concrete address and an unaligned host address. -/
theorem ept_add_page_then_translate_witness :
    0x5123 < 2 ^ 64 ∧
    ept_translate (ept_add_page emptyEPT 0x123456789000 0x5123) 0x123456789000
      = 0x5123 / PAGE_SIZE * PAGE_SIZE :=
  ⟨by norm_num, ept_add_page_then_translate emptyEPT 0x123456789000 0x5123
    (by norm_num)⟩

/-- C2.  A `translate` whose 4-level walk reaches an unallocated
intermediate table (missing pdpt, pd, or pt node) returns the distinguished
absent result `0`, never a garbage value. -/
theorem ept_translate_missing_level_absent (ept : EPT) (va : Nat)
    (h : ept (pml4_idx va) = none ∨
      (∃ pdpt, ept (pml4_idx va) = some pdpt ∧ pdpt (pdpt_idx va) = none) ∨
      (∃ pdpt pd, ept (pml4_idx va) = some pdpt ∧
        pdpt (pdpt_idx va) = some pd ∧ pd (pd_idx va) = none)) :
    ept_translate ept va = 0 := by
  rcases h with h1 | ⟨pdpt, h1, h2⟩ | ⟨pdpt, pd, h1, h2, h3⟩
  · simp [ept_translate, h1]
  · simp [ept_translate, h1, h2]
  · simp [ept_translate, h1, h2, h3]

/-- Witness for C2 on the freshly initialized (empty) table. -/
theorem ept_translate_missing_level_absent_witness :
    (emptyEPT (pml4_idx 0) = none ∨
      (∃ pdpt, emptyEPT (pml4_idx 0) = some pdpt ∧ pdpt (pdpt_idx 0) = none) ∨
      (∃ pdpt pd, emptyEPT (pml4_idx 0) = some pdpt ∧
        pdpt (pdpt_idx 0) = some pd ∧ pd (pd_idx 0) = none)) ∧
    ept_translate emptyEPT 0 = 0 :=
  ⟨Or.inl rfl, ept_translate_missing_level_absent emptyEPT 0 (Or.inl rfl)⟩

/-- C3.  Mapping the same guest physical address twice with different host
addresses yields the second mapping on the subsequent `translate`: the
second `addPage` overwrites the existing leaf unconditionally, so the
result is the second host address masked to a page boundary, whatever the
first one was. -/
theorem ept_add_page_last_write_wins (ept : EPT) (va h1 h2 : Nat)
    (hh : h2 < 2 ^ 64) :
    ept_translate (ept_add_page (ept_add_page ept va h1) va h2) va
      = h2 / PAGE_SIZE * PAGE_SIZE :=
  ept_translate_after_add (ept_add_page ept va h1) va h2 hh

/-- Witness for C3: remap of the same guest page to a second host page. -/
theorem ept_add_page_last_write_wins_witness :
    0x2000 < 2 ^ 64 ∧
    ept_translate (ept_add_page (ept_add_page emptyEPT 0x7000 0x1000) 0x7000 0x2000)
      0x7000 = 0x2000 / PAGE_SIZE * PAGE_SIZE :=
  ⟨by norm_num, ept_add_page_last_write_wins emptyEPT 0x7000 0x1000 0x2000
    (by norm_num)⟩

/-- C4.  A run invocation whose dispatched handlers all answer "continue"
executes at most the configured bound of 1000 loop iterations and then
terminates with the timeout report firing (`cont == 1` at loop exit; the
"EXIT FROM TIMEOUT" path); the loop never runs forever — the model
terminates structurally on the same 1000-step budget the C counter
enforces. -/
theorem kvm_run_wrapper_bounded_timeout (step : Nat → Bool × Nat)
    (h : ∀ k, (step k).1 = true) :
    (kvm_run_wrapper_loop step).1 ≤ 1000 ∧
    (kvm_run_wrapper_loop step).2 = true := by
  have hx := runLoopAux_all_continue step h 1000 0
  simpa [kvm_run_wrapper_loop] using hx

/-- Witness for C4: the constant always-continue, never-erroring stream. -/
theorem kvm_run_wrapper_bounded_timeout_witness :
    (∀ k : Nat, ((fun _ => (true, 0) : Nat → Bool × Nat) k).1 = true) ∧
    ((kvm_run_wrapper_loop (fun _ => (true, 0))).1 ≤ 1000 ∧
     (kvm_run_wrapper_loop (fun _ => (true, 0))).2 = true) :=
  ⟨fun _ => rfl, kvm_run_wrapper_bounded_timeout (fun _ => (true, 0))
    (fun _ => rfl)⟩

/-- C5 counterexample.  At a concrete I/O exit the handler returns 0 — the
"stop" answer — not "continue": fed to the run loop skeleton, the very
first dispatch stops the loop (one iteration, no timeout), so the run loop
does not proceed to the next world switch after an I/O exit. -/
theorem handle_io_returns_stop_counterexample :
    (handle_io ioTestVcpu).2 = 0 ∧
    kvm_run_wrapper_loop (fun _ => ((handle_io ioTestVcpu).2 != 0, 0))
      = (1, false) :=
  ⟨rfl, rfl⟩

/-- C5 as amended.  For every I/O exit, `handle_io` advances the guest
instruction pointer by the exit's instruction length, records the
transaction and sets the exit reason to `KVM_EXIT_IO`, and returns 0
(stop), so the run loop exits to the caller after an I/O exit instead of
performing another world switch. -/
theorem handle_io_skips_and_stops (v : Vcpu) :
    (handle_io v).1.regs VCPU_REGS_RIP
      = (v.regs VCPU_REGS_RIP + v.exit_instruction_len) % 2 ^ 64 ∧
    (handle_io v).1.exit_reason = KVM_EXIT_IO_REASON ∧
    (handle_io v).2 = 0 := by
  refine ⟨?_, ?_, rfl⟩ <;>
    by_cases hin : v.exit_qualification &&& 8 ≠ 0 <;>
      simp [handle_io, skip_emulated_instruction, updf, hin]

/-- C6.  For every CPUID exit with function 1 — the low 32 bits of guest
`RAX` equal to 1 — and every override-table contents (including entries
that explicitly set these bits), the values written to the result
registers have the SSE bits (edx 25, 26), SSE3 bits (ecx 0, 9), SSE4 bits
(ecx 19, 20) and XSAVE bits (ecx 26, 27) cleared: the masking is applied
unconditionally after the override lookup or the real-CPU fallback. -/
theorem handle_cpuid_masks_sse_xsave (realCpuid : Nat → Nat → Nat × Nat × Nat × Nat)
    (v : Vcpu) (h : v.regs VCPU_REGS_RAX % 2 ^ 32 = 1) :
    ((handle_cpuid realCpuid v).1.regs VCPU_REGS_RDX).testBit 25 = false ∧
    ((handle_cpuid realCpuid v).1.regs VCPU_REGS_RDX).testBit 26 = false ∧
    ((handle_cpuid realCpuid v).1.regs VCPU_REGS_RCX).testBit 0 = false ∧
    ((handle_cpuid realCpuid v).1.regs VCPU_REGS_RCX).testBit 9 = false ∧
    ((handle_cpuid realCpuid v).1.regs VCPU_REGS_RCX).testBit 19 = false ∧
    ((handle_cpuid realCpuid v).1.regs VCPU_REGS_RCX).testBit 20 = false ∧
    ((handle_cpuid realCpuid v).1.regs VCPU_REGS_RCX).testBit 26 = false ∧
    ((handle_cpuid realCpuid v).1.regs VCPU_REGS_RCX).testBit 27 = false := by
  have hrcx : (handle_cpuid realCpuid v).1.regs VCPU_REGS_RCX
      = (cpuid_adjust (v.regs VCPU_REGS_RAX % 2 ^ 32)
          (cpuid_result realCpuid v).2.2.1 (cpuid_result realCpuid v).2.2.2).1 := rfl
  have hrdx : (handle_cpuid realCpuid v).1.regs VCPU_REGS_RDX
      = (cpuid_adjust (v.regs VCPU_REGS_RAX % 2 ^ 32)
          (cpuid_result realCpuid v).2.2.1 (cpuid_result realCpuid v).2.2.2).2 := rfl
  rw [hrcx, hrdx, h]
  refine ⟨?_, ?_, ?_, ?_, ?_, ?_, ?_, ?_⟩
  · show ((cpuid_result realCpuid v).2.2.2 &&& 0xF9FFFFFF).testBit 25 = false
    apply testBit_land_right_false; decide
  · show ((cpuid_result realCpuid v).2.2.2 &&& 0xF9FFFFFF).testBit 26 = false
    apply testBit_land_right_false; decide
  · show ((cpuid_result realCpuid v).2.2.1 &&& 0xFFFFFDFE &&& 0xFFE7FFFF
        &&& 0xF3FFFFFF).testBit 0 = false
    apply testBit_land_left_false; apply testBit_land_left_false
    apply testBit_land_right_false; decide
  · show ((cpuid_result realCpuid v).2.2.1 &&& 0xFFFFFDFE &&& 0xFFE7FFFF
        &&& 0xF3FFFFFF).testBit 9 = false
    apply testBit_land_left_false; apply testBit_land_left_false
    apply testBit_land_right_false; decide
  · show ((cpuid_result realCpuid v).2.2.1 &&& 0xFFFFFDFE &&& 0xFFE7FFFF
        &&& 0xF3FFFFFF).testBit 19 = false
    apply testBit_land_left_false; apply testBit_land_right_false; decide
  · show ((cpuid_result realCpuid v).2.2.1 &&& 0xFFFFFDFE &&& 0xFFE7FFFF
        &&& 0xF3FFFFFF).testBit 20 = false
    apply testBit_land_left_false; apply testBit_land_right_false; decide
  · show ((cpuid_result realCpuid v).2.2.1 &&& 0xFFFFFDFE &&& 0xFFE7FFFF
        &&& 0xF3FFFFFF).testBit 26 = false
    apply testBit_land_right_false; decide
  · show ((cpuid_result realCpuid v).2.2.1 &&& 0xFFFFFDFE &&& 0xFFE7FFFF
        &&& 0xF3FFFFFF).testBit 27 = false
    apply testBit_land_right_false; decide

/-- Witness for C6: a CPUID-function-1 exit whose override entry explicitly
sets every `ecx`/`edx` bit. -/
theorem handle_cpuid_masks_sse_xsave_witness :
    cpuidTestVcpu.regs VCPU_REGS_RAX % 2 ^ 32 = 1 ∧
    (((handle_cpuid (fun _ _ => (0, 0, 0xFFFFFFFF, 0xFFFFFFFF)) cpuidTestVcpu).1.regs
        VCPU_REGS_RDX).testBit 25 = false ∧
     ((handle_cpuid (fun _ _ => (0, 0, 0xFFFFFFFF, 0xFFFFFFFF)) cpuidTestVcpu).1.regs
        VCPU_REGS_RDX).testBit 26 = false ∧
     ((handle_cpuid (fun _ _ => (0, 0, 0xFFFFFFFF, 0xFFFFFFFF)) cpuidTestVcpu).1.regs
        VCPU_REGS_RCX).testBit 0 = false ∧
     ((handle_cpuid (fun _ _ => (0, 0, 0xFFFFFFFF, 0xFFFFFFFF)) cpuidTestVcpu).1.regs
        VCPU_REGS_RCX).testBit 9 = false ∧
     ((handle_cpuid (fun _ _ => (0, 0, 0xFFFFFFFF, 0xFFFFFFFF)) cpuidTestVcpu).1.regs
        VCPU_REGS_RCX).testBit 19 = false ∧
     ((handle_cpuid (fun _ _ => (0, 0, 0xFFFFFFFF, 0xFFFFFFFF)) cpuidTestVcpu).1.regs
        VCPU_REGS_RCX).testBit 20 = false ∧
     ((handle_cpuid (fun _ _ => (0, 0, 0xFFFFFFFF, 0xFFFFFFFF)) cpuidTestVcpu).1.regs
        VCPU_REGS_RCX).testBit 26 = false ∧
     ((handle_cpuid (fun _ _ => (0, 0, 0xFFFFFFFF, 0xFFFFFFFF)) cpuidTestVcpu).1.regs
        VCPU_REGS_RCX).testBit 27 = false) :=
  ⟨by decide, handle_cpuid_masks_sse_xsave (fun _ _ => (0, 0, 0xFFFFFFFF, 0xFFFFFFFF))
    cpuidTestVcpu (by decide)⟩

/-- C7.  Asserting an in-range interrupt line twice at level 1 with no
intervening deassert leaves the pending bitmap and the per-line level array
exactly as asserting it once: only the 0-to-1 transition of the stored
level sets the pending bit, so the second assertion changes nothing. -/
theorem kvm_irq_line_assert_idempotent (s : IrqState) (n : Nat)
    (h : n < IRQ_MAX) :
    kvm_irq_line (kvm_irq_line s n 1).1 n 1 = kvm_irq_line s n 1 := by
  simp only [kvm_irq_line, if_pos h, updf_updf_same]
  simp [updf]

/-- Witness for C7 at line 3 from the all-deasserted state. -/
theorem kvm_irq_line_assert_idempotent_witness :
    3 < IRQ_MAX ∧
    kvm_irq_line (kvm_irq_line irqTestState 3 1).1 3 1
      = kvm_irq_line irqTestState 3 1 :=
  ⟨by norm_num [IRQ_MAX], kvm_irq_line_assert_idempotent irqTestState 3
    (by norm_num [IRQ_MAX])⟩

/-- C9 counterexample.  At a concrete MSR-write exit (guest writes value 5
to MSR 0x10) the handler leaves the hardware MSR file untouched, while
executing the real `wrmsr` with the guest's register values would store 5:
the MSR-write handler does not execute the hardware instruction. -/
theorem handle_wrmsr_drops_write_counterexample :
    (handle_wrmsr msrTestVcpu (fun _ => 0)).2.1 0x10 = 0 ∧
    wrmsr_real_effect (fun _ => 0) msrTestVcpu.regs 0x10 = 5 ∧
    (0 : Nat) ≠ 5 :=
  ⟨rfl, by decide, by decide⟩

/-- C9 as amended.  An MSR-read exit executes the real `rdmsr` against
hardware with the guest's `ECX` — no per-guest virtualized MSR store is
consulted — storing the low half in guest `RAX` and the high half in guest
`RDX`; an MSR-write exit executes no hardware instruction and leaves the
MSR file unchanged; both handlers advance the guest instruction pointer by
the exit's instruction length and return 1 (continue). -/
theorem msr_handlers_rdmsr_real_wrmsr_dropped (v : Vcpu) (msr : MsrState) :
    (handle_rdmsr v msr).1.regs VCPU_REGS_RAX
      = msr (v.regs VCPU_REGS_RCX % 2 ^ 32) % 2 ^ 64 % 2 ^ 32 ∧
    (handle_rdmsr v msr).1.regs VCPU_REGS_RDX
      = (msr (v.regs VCPU_REGS_RCX % 2 ^ 32) % 2 ^ 64) >>> 32 ∧
    (handle_rdmsr v msr).1.regs VCPU_REGS_RIP
      = (v.regs VCPU_REGS_RIP + v.exit_instruction_len) % 2 ^ 64 ∧
    (handle_rdmsr v msr).2 = 1 ∧
    (handle_wrmsr v msr).2.1 = msr ∧
    (handle_wrmsr v msr).1.regs VCPU_REGS_RIP
      = (v.regs VCPU_REGS_RIP + v.exit_instruction_len) % 2 ^ 64 ∧
    (handle_wrmsr v msr).2.2 = 1 := by
  refine ⟨?_, ?_, ?_, rfl, rfl, ?_, rfl⟩ <;>
    simp [handle_rdmsr, handle_wrmsr, skip_emulated_instruction, updf,
      VCPU_REGS_RAX, VCPU_REGS_RDX, VCPU_REGS_RIP]

/-- C10.  An interrupt-line request for a line at or above `IRQ_MAX` leaves
the pending bitmap and the per-line level array completely unchanged and
still returns status 0: out-of-range lines are silently ignored, not
reported as errors. -/
theorem kvm_irq_line_out_of_range_noop (s : IrqState) (irq level : Nat)
    (h : IRQ_MAX ≤ irq) :
    kvm_irq_line s irq level = (s, 0) := by
  simp [kvm_irq_line, Nat.not_lt.mpr h]

/-- Witness for C10 at line 16 (the first out-of-range line), level 1. -/
theorem kvm_irq_line_out_of_range_noop_witness :
    IRQ_MAX ≤ 16 ∧ kvm_irq_line irqTestState 16 1 = (irqTestState, 0) :=
  ⟨by norm_num [IRQ_MAX], kvm_irq_line_out_of_range_noop irqTestState 16 1
    (by norm_num [IRQ_MAX])⟩

/-- C8, against the code as written.  Installing a 1-page region whose
caller virtual address 0x1001 is not page-aligned, with the pin-and-
translate collaborator resolving every page, is not rejected: the call
returns status 0 (not `EINVAL`) and the region's page has been installed in
the second-level table (the guest page at 0x10000 now translates to host
page 0x5000), contradicting the claim that the operation fails with
invalid-argument before any page is mapped.  The source's own
`// check alignment` comment announces a test the code never performs. -/
theorem kvm_set_user_memory_region_unaligned_installs :
    (kvm_set_user_memory_region emptyEPT true (fun _ => 0x5001)
      0 0 0x10000 0x1000 0x1001).2 = 0 ∧
    ept_translate (kvm_set_user_memory_region emptyEPT true (fun _ => 0x5001)
      0 0 0x10000 0x1000 0x1001).1 0x10000 = 0x5000 :=
  ⟨rfl, by decide⟩

end KvmKext
